import Mathlib

/-!
Verification development for the payment-gateway header-authentication core
(`src/gateway/services/auth-helper.js` and `src/gateway/services/signature.js`).

The JavaScript source is shallowly embedded: pure functions become Lean
functions, the clock reads (`new Date()`, `Date.now()`) become explicit
parameters, thrown exceptions become `Except` values, and the Node `crypto`
primitives (SHA-256, HMAC-SHA256, base64, `timingSafeEqual`) are implemented
concretely so that every definition is executable. Bytes are `Nat` values
below 256 and 32-bit machine words are `Nat` values reduced modulo 2^32 at
every step where the source relies on 32-bit overflow.
-/

set_option maxRecDepth 100000

namespace Gateway

/-! ## Bytes and strings -/

/-- The UTF-8 encoding of a single Unicode code point. -/
def utf8Bytes (c : Nat) : List Nat :=
  if c < 128 then [c]
  else if c < 2048 then [192 + c / 64, 128 + c % 64]
  else if c < 65536 then [224 + c / 4096, 128 + c / 64 % 64, 128 + c % 64]
  else [240 + c / 262144, 128 + c / 4096 % 64, 128 + c / 64 % 64, 128 + c % 64]

/-- The UTF-8 bytes of a string, as naturals below 256.  This models both
`Buffer.from(string)` and the byte stream fed to Node `crypto` update calls. -/
def strBytes (s : String) : List Nat :=
  s.data.foldr (fun c acc => utf8Bytes c.toNat ++ acc) []

/-- Split a character list at every occurrence of a separator character
(kernel-reducible counterpart of single-character String.splitOn). -/
def splitChars (sep : Char) : List Char → List (List Char)
  | [] => [[]]
  | c :: rest =>
    match splitChars sep rest with
    | [] => [[c]]
    | h :: t => if c == sep then [] :: h :: t else (c :: h) :: t

/-- Split a string at every occurrence of a separator character. -/
def splitStr (sep : Char) (s : String) : List String :=
  (splitChars sep s.data).map String.mk

/-- Whether p is a prefix of s (kernel-reducible String.startsWith). -/
def strStartsWith (s p : String) : Bool :=
  p.data.isPrefixOf s.data

/-- ASCII lowercasing of one character (all strings compared
case-insensitively in this development are ASCII header names). -/
def charLower (c : Char) : Char :=
  if 65 ≤ c.toNat && c.toNat ≤ 90 then Char.ofNat (c.toNat + 32) else c

/-- ASCII lowercasing of a string. -/
def strToLower (s : String) : String :=
  String.mk (s.data.map charLower)

/-! ## SHA-256 (FIPS 180-4), over byte lists -/

namespace Crypto

/-- Right rotation of a 32-bit word given as a `Nat` below 2^32. -/
def rotr (n x : Nat) : Nat :=
  x / 2 ^ n + x % 2 ^ n * 2 ^ (32 - n)

/-- Bitwise complement of a 32-bit word. -/
def not32 (x : Nat) : Nat := 4294967295 - x

/-- Choice function of SHA-256. -/
def ch (x y z : Nat) : Nat := (x &&& y) ^^^ (not32 x &&& z)

/-- Majority function of SHA-256. -/
def maj (x y z : Nat) : Nat := (x &&& y) ^^^ (x &&& z) ^^^ (y &&& z)

/-- Big sigma-0 of SHA-256. -/
def bigSigma0 (x : Nat) : Nat := rotr 2 x ^^^ rotr 13 x ^^^ rotr 22 x

/-- Big sigma-1 of SHA-256. -/
def bigSigma1 (x : Nat) : Nat := rotr 6 x ^^^ rotr 11 x ^^^ rotr 25 x

/-- Small sigma-0 of SHA-256. -/
def smallSigma0 (x : Nat) : Nat := rotr 7 x ^^^ rotr 18 x ^^^ x / 8

/-- Small sigma-1 of SHA-256. -/
def smallSigma1 (x : Nat) : Nat := rotr 17 x ^^^ rotr 19 x ^^^ x / 1024

/-- The running hash state: eight 32-bit words. -/
structure Hash8 where
  a : Nat
  b : Nat
  c : Nat
  d : Nat
  e : Nat
  f : Nat
  g : Nat
  h : Nat

/-- Initial SHA-256 hash value (FIPS 180-4 section 5.3.3, in decimal). -/
def H0 : Hash8 :=
  ⟨1779033703, 3144134277, 1013904242, 2773480762,
   1359893119, 2600822924, 528734635, 1541459225⟩

/-- The 64 SHA-256 round constants (FIPS 180-4 section 4.2.2, in decimal). -/
def K : List Nat :=
  [1116352408, 1899447441, 3049323471, 3921009573, 961987163,
   1508970993, 2453635748, 2870763221, 3624381080, 310598401,
   607225278, 1426881987, 1925078388, 2162078206, 2614888103,
   3248222580, 3835390401, 4022224774, 264347078, 604807628,
   770255983, 1249150122, 1555081692, 1996064986, 2554220882,
   2821834349, 2952996808, 3210313671, 3336571891, 3584528711,
   113926993, 338241895, 666307205, 773529912, 1294757372,
   1396182291, 1695183700, 1986661051, 2177026350, 2456956037,
   2730485921, 2820302411, 3259730800, 3345764771, 3516065817,
   3600352804, 4094571909, 275423344, 430227734, 506948616,
   659060556, 883997877, 958139571, 1322822218, 1537002063,
   1747873779, 1955562222, 2024104815, 2227730452, 2361852424,
   2428436474, 2756734187, 3204031479, 3329325298]

/-- SHA-256 padding: append the 0x80 byte, zeros, and the 64-bit big-endian
bit length, reaching a multiple of 64 bytes. -/
def pad (msg : List Nat) : List Nat :=
  let L := msg.length
  let k := (120 - (L + 1) % 64) % 64
  let bits := L * 8
  msg ++ [128] ++ List.replicate k 0 ++
    [bits / 2 ^ 56 % 256, bits / 2 ^ 48 % 256, bits / 2 ^ 40 % 256,
     bits / 2 ^ 32 % 256, bits / 2 ^ 24 % 256, bits / 2 ^ 16 % 256,
     bits / 2 ^ 8 % 256, bits % 256]

/-- The sixteen big-endian 32-bit words of one 64-byte block. -/
def blockWords (block : List Nat) : List Nat :=
  (List.range 16).map fun i =>
    block.getD (4 * i) 0 * 16777216 + block.getD (4 * i + 1) 0 * 65536 +
      block.getD (4 * i + 2) 0 * 256 + block.getD (4 * i + 3) 0

/-- Extend sixteen message words to the 64-entry message schedule. -/
def schedule (w16 : List Nat) : List Nat :=
  (List.range 48).foldl
    (fun w i =>
      w ++ [(smallSigma1 (w.getD (i + 14) 0) + w.getD (i + 9) 0 +
             smallSigma0 (w.getD (i + 1) 0) + w.getD i 0) % 4294967296])
    w16

/-- One SHA-256 round on the working variables, fed one (constant, word)
pair. -/
def step (st : Hash8) (kw : Nat × Nat) : Hash8 :=
  let t1 := (st.h + bigSigma1 st.e + ch st.e st.f st.g + kw.1 + kw.2) % 4294967296
  let t2 := (bigSigma0 st.a + maj st.a st.b st.c) % 4294967296
  ⟨(t1 + t2) % 4294967296, st.a, st.b, st.c, (st.d + t1) % 4294967296,
   st.e, st.f, st.g⟩

/-- Compress one 64-byte block into the running hash state. -/
def compress (st : Hash8) (block : List Nat) : Hash8 :=
  let w := schedule (blockWords block)
  let fin := (K.zip w).foldl step st
  ⟨(st.a + fin.a) % 4294967296, (st.b + fin.b) % 4294967296,
   (st.c + fin.c) % 4294967296, (st.d + fin.d) % 4294967296,
   (st.e + fin.e) % 4294967296, (st.f + fin.f) % 4294967296,
   (st.g + fin.g) % 4294967296, (st.h + fin.h) % 4294967296⟩

/-- The four big-endian bytes of one 32-bit word. -/
def wordBytes (x : Nat) : List Nat :=
  [x / 16777216 % 256, x / 65536 % 256, x / 256 % 256, x % 256]

/-- The 32 digest bytes of a hash state. -/
def digestBytes (st : Hash8) : List Nat :=
  wordBytes st.a ++ wordBytes st.b ++ wordBytes st.c ++ wordBytes st.d ++
    wordBytes st.e ++ wordBytes st.f ++ wordBytes st.g ++ wordBytes st.h

/-- SHA-256 of a byte list, as its 32 digest bytes.  Models
`crypto.createHash(sha256)`. -/
def sha256 (msg : List Nat) : List Nat :=
  let padded := pad msg
  let blocks := (List.range (padded.length / 64)).map
    fun i => ((padded.drop (64 * i)).take 64)
  digestBytes (blocks.foldl compress H0)

/-- HMAC-SHA256 (RFC 2104) of a message under a key, both byte lists.
Models `crypto.createHmac(sha256, key)`. -/
def hmacSha256 (key msg : List Nat) : List Nat :=
  let k0 := if 64 < key.length then sha256 key else key
  let kp := k0 ++ List.replicate (64 - k0.length) 0
  sha256 (kp.map (fun b => b ^^^ 92) ++ sha256 (kp.map (fun b => b ^^^ 54) ++ msg))

/-! ## Base64 -/

/-- The base64 alphabet. -/
def base64Alphabet : List Char :=
  "ABCDEFGHIJKLMNOPQRSTUVWXYZabcdefghijklmnopqrstuvwxyz0123456789+/".data

/-- The base64 character for a 6-bit value. -/
def b64char (n : Nat) : Char := base64Alphabet.getD n 'A'

/-- The four characters encoding one full 3-byte group. -/
def enc3 (a b c : Nat) : List Char :=
  [b64char (a / 4), b64char (a % 4 * 16 + b / 16),
   b64char (b % 16 * 4 + c / 64), b64char (c % 64)]

/-- Standard base64 encoding of a byte list, with `=` padding.  Models the
Node `digest(base64)` output encoding. -/
def base64Encode (l : List Nat) : String :=
  let n := l.length
  let core := (List.range (n / 3)).flatMap fun i =>
    enc3 (l.getD (3 * i) 0) (l.getD (3 * i + 1) 0) (l.getD (3 * i + 2) 0)
  let tail :=
    match n % 3 with
    | 1 =>
      let a := l.getD (n - 1) 0
      [b64char (a / 4), b64char (a % 4 * 16), '=', '=']
    | 2 =>
      let a := l.getD (n - 2) 0
      let b := l.getD (n - 1) 0
      [b64char (a / 4), b64char (a % 4 * 16 + b / 16), b64char (b % 16 * 4), '=']
    | _ => []
  String.mk (core ++ tail)

/-- Node timingSafeEqual over byte lists: throws when the buffer lengths
differ, else compares without early exit (modelled as an or-fold of the
bytewise xors, zero exactly when all bytes agree). -/
def timingSafeEqual (a b : List Nat) : Except String Bool :=
  if a.length ≠ b.length then .error "Input buffers must have the same byte length"
  else .ok ((a.zip b).foldl (fun acc p => acc ||| (p.1 ^^^ p.2)) 0 == 0)

end Crypto

/-! ## JSON values and JSON.stringify

JavaScript request bodies are modelled as JSON trees whose object fields
keep insertion order, the property JSON.stringify serialization depends on.
Numbers are modelled as integers (every number appearing in this
development is integral and inside the double-precision safe range, where
JSON.stringify prints the plain decimal form). -/

inductive JsValue where
  | null : JsValue
  | bool (b : Bool) : JsValue
  | num (n : Int) : JsValue
  | str (s : String) : JsValue
  | arr (elems : List JsValue) : JsValue
  | obj (fields : List (String × JsValue)) : JsValue

/-- Lowercase hexadecimal digit. -/
def hexDigit (n : Nat) : Char := "0123456789abcdef".data.getD n '0'

/-- The escape sequence JSON.stringify emits for one character. -/
def escapeChar (c : Char) : List Char :=
  if c = '"' then ['\\', '"']
  else if c = '\\' then ['\\', '\\']
  else if c.toNat = 8 then ['\\', 'b']
  else if c.toNat = 9 then ['\\', 't']
  else if c.toNat = 10 then ['\\', 'n']
  else if c.toNat = 12 then ['\\', 'f']
  else if c.toNat = 13 then ['\\', 'r']
  else if c.toNat < 32 then
    ['\\', 'u', '0', '0', hexDigit (c.toNat / 16), hexDigit (c.toNat % 16)]
  else [c]

/-- A JSON string literal: quotes around the escaped characters. -/
def quoteString (s : String) : String :=
  "\"" ++ String.mk (s.data.foldr (fun c acc => escapeChar c ++ acc) []) ++ "\""

mutual

/-- JSON.stringify on a JSON tree: minimal whitespace, object fields in
insertion order. -/
def jsonStringify : JsValue → String
  | .null => "null"
  | .bool true => "true"
  | .bool false => "false"
  | .num n => toString n
  | .str s => quoteString s
  | .arr elems => "[" ++ stringifyElems elems ++ "]"
  | .obj fields => "\x7b" ++ stringifyFields fields ++ "\x7d"

/-- Comma-joined serialization of array elements. -/
def stringifyElems : List JsValue → String
  | [] => ""
  | [v] => jsonStringify v
  | v :: rest => jsonStringify v ++ "," ++ stringifyElems rest

/-- Comma-joined serialization of object fields. -/
def stringifyFields : List (String × JsValue) → String
  | [] => ""
  | [(k, v)] => quoteString k ++ ":" ++ jsonStringify v
  | (k, v) :: rest =>
    quoteString k ++ ":" ++ jsonStringify v ++ "," ++ stringifyFields rest

end

/-! ## SignatureService (src/gateway/services/signature.js) -/

namespace SignatureService

/-- Lexicographic code-unit comparison of character lists, the default
JavaScript string ordering used by Array.prototype.sort. -/
def strLeChars : List Char → List Char → Bool
  | [], _ => true
  | _ :: _, [] => false
  | a :: as, b :: bs =>
    if a.toNat < b.toNat then true
    else if b.toNat < a.toNat then false
    else strLeChars as bs

/-- Lexicographic order on strings (code-unit comparison). -/
def keyLe (a b : String) : Bool := strLeChars a.data b.data

/-- Insert one field into a key-sorted field list (ascending key order). -/
def insertByKey (p : String × JsValue) :
    List (String × JsValue) → List (String × JsValue)
  | [] => [p]
  | q :: rest => if keyLe p.1 q.1 then p :: q :: rest else q :: insertByKey p rest

/-- Stable insertion sort of fields by key, the order Object.keys(o).sort()
produces (ascending code-unit order; object keys are unique). -/
def sortFieldsByKey : List (String × JsValue) → List (String × JsValue)
  | [] => []
  | p :: rest => insertByKey p (sortFieldsByKey rest)

mutual

/-- Embedding of SignatureService.sortKeys: objects get their keys sorted
and their values recursively treated; null, primitives and arrays are
returned unchanged (the source returns early on Array.isArray). -/
def sortKeys : JsValue → JsValue
  | .obj fields => .obj (sortFieldsByKey (sortKeysFields fields))
  | v => v

/-- Apply sortKeys to every field value, keeping the field order. -/
def sortKeysFields : List (String × JsValue) → List (String × JsValue)
  | [] => []
  | (k, v) :: rest => (k, sortKeys v) :: sortKeysFields rest

end

/-- Embedding of SignatureService.stringifyPayload: stringify with keys
sorted recursively. -/
def stringifyPayload (payload : JsValue) : String :=
  jsonStringify (sortKeys payload)

end SignatureService

/-! ## AuthHelper (src/gateway/services/auth-helper.js)

The configuration object: each field may be absent (undefined) or present.
The JavaScript truthiness test rejects both absent and empty strings. -/

structure Config where
  host : Option String
  merchantId : Option String
  apiKey : Option String
  apiSecret : Option String

/-- JavaScript falsiness of an optional string: absent or empty. -/
def jsFalsy : Option String → Bool
  | none => true
  | some s => s == ""

/-- The JavaScript expression `value or-else default` on an optional string:
the default is taken when the value is falsy. -/
def jsOrDefault (o : Option String) (d : String) : String :=
  match o with
  | none => d
  | some s => if s == "" then d else s

/-- The string carried by an optional value (only read after a truthiness
check has ruled out the absent case). -/
def optStr (o : Option String) : String := o.getD ""

namespace AuthHelper

/-- Embedding of AuthHelper.generateSignature: base64 of HMAC-SHA256 keyed
by apiSecret over the pipe-joined field string. -/
def generateSignature
    (timestamp host targetApi merchantId apiKey apiSecret : String) : String :=
  let signatureString :=
    timestamp ++ "|" ++ host ++ "|" ++ targetApi ++ "|" ++ merchantId ++ "|" ++ apiKey
  Crypto.base64Encode (Crypto.hmacSha256 (strBytes apiSecret) (strBytes signatureString))

/-- Embedding of AuthHelper.generateDigest: SHA-256= prefix plus base64 of
SHA-256 of the JSON serialization of the body. -/
def generateDigest (requestBody : JsValue) : String :=
  let bodyString := jsonStringify requestBody
  "SHA-256=" ++ Crypto.base64Encode (Crypto.sha256 (strBytes bodyString))

/-- The private-or-loopback prefix test of generateGatewayHeaders, with the
regex alternation over 172.16 through 172.31 expanded to the finite list of
prefixes it matches. -/
def isLocalIp (s : String) : Bool :=
  strStartsWith s "localhost" || strStartsWith s "127.0.0.1" ||
    strStartsWith s "192.168." || strStartsWith s "10." ||
    (["172.16.", "172.17.", "172.18.", "172.19.", "172.20.", "172.21.",
      "172.22.", "172.23.", "172.24.", "172.25.", "172.26.", "172.27.",
      "172.28.", "172.29.", "172.30.", "172.31."].any fun p => strStartsWith s p)

/-- The host derivation of generateGatewayHeaders: keep an explicit scheme,
else prefix http for private addresses and https otherwise. -/
def buildHost (baseHost : String) : String :=
  if strStartsWith baseHost "http://" || strStartsWith baseHost "https://" then baseHost
  else if isLocalIp baseHost then "http://" ++ baseHost
  else "https://" ++ baseHost

/-- Embedding of AuthHelper.generateGatewayHeaders.  The clock read
(new Date().toUTCString()) is passed in as the timestamp argument; thrown
errors become the error branch of Except; the produced header set is an
association list in emission order. -/
def generateGatewayHeaders (timestamp : String) (targetApi : String)
    (requestBody : JsValue) (config : Config) :
    Except String (List (String × String)) :=
  let baseHost := jsOrDefault config.host "api-stage.tnextpay.com"
  if jsFalsy config.merchantId then
    .error "MERCHANT_ID is required for gateway authentication"
  else if jsFalsy config.apiKey then
    .error "API_KEY is required for gateway authentication"
  else if jsFalsy config.apiSecret then
    .error "API_SECRET is required for gateway authentication"
  else
    let merchantId := optStr config.merchantId
    let apiKey := optStr config.apiKey
    let apiSecret := optStr config.apiSecret
    let host := buildHost baseHost
    let targetApiWithMethod := "POST " ++ targetApi
    let signature :=
      generateSignature timestamp host targetApiWithMethod merchantId apiKey apiSecret
    let digest := generateDigest requestBody
    .ok [("X-TNPG-TIMESTAMP", timestamp),
         ("X-TNPG-HOST", host),
         ("X-TNPG-TARGET-API", targetApiWithMethod),
         ("X-TNPG-MERCHANT-ID", merchantId),
         ("X-TNPG-API-KEY", apiKey),
         ("X-TNPG-SIGNATURE", signature),
         ("X-TNPG-DIGEST", digest),
         ("Content-Type", "application/json")]

/-! Timestamp parsing.  validateTimestamp calls new Date(timestamp),
which the embedding models as a parser for the RFC-1123 GMT format that
toUTCString emits (for example Mon, 09 Feb 2026 07:47:49 GMT), returning
milliseconds since the Unix epoch.  Strings outside this strictly
validated format are conservatively mapped to none, the NaN outcome. -/

/-- Month tokens of toUTCString. -/
def monthNames : List String :=
  ["Jan", "Feb", "Mar", "Apr", "May", "Jun",
   "Jul", "Aug", "Sep", "Oct", "Nov", "Dec"]

/-- Weekday tokens of toUTCString. -/
def dayNames : List String := ["Sun", "Mon", "Tue", "Wed", "Thu", "Fri", "Sat"]

/-- Gregorian leap year. -/
def isLeap (y : Nat) : Bool := (y % 4 == 0 && y % 100 != 0) || y % 400 == 0

/-- Month lengths of a year. -/
def monthLengths (leap : Bool) : List Nat :=
  [31, if leap then 29 else 28, 31, 30, 31, 30, 31, 31, 30, 31, 30, 31]

/-- Days from 1970-01-01 to the start of a year. -/
def daysBeforeYear (y : Nat) : Nat :=
  ((List.range (y - 1970)).map fun i => if isLeap (1970 + i) then 366 else 365).sum

/-- Decimal parse of a nonempty all-digit token. -/
def parseNatDigits (s : String) : Option Nat :=
  if s.length != 0 && s.data.all Char.isDigit then
    some (s.data.foldl (fun acc c => acc * 10 + (c.toNat - 48)) 0)
  else none

/-- Milliseconds since the epoch of an RFC-1123 GMT timestamp string,
modelling new Date(string).getTime() on the toUTCString format. -/
def jsDateGetTime (s : String) : Option Int :=
  match splitStr ' ' s with
  | [dayTok, dayS, monS, yearS, hmsS, tz] =>
    if tz == "GMT" && dayNames.any (fun d => dayTok == d ++ ",") then
      match parseNatDigits dayS, monthNames.findIdx? (fun m => m == monS),
          parseNatDigits yearS, splitStr ':' hmsS with
      | some d, some mi, some y, [hS, mS, sS] =>
        match parseNatDigits hS, parseNatDigits mS, parseNatDigits sS with
        | some hh, some mm, some ss =>
          if 1970 ≤ y && 1 ≤ d && d ≤ (monthLengths (isLeap y)).getD mi 0 &&
              hh ≤ 23 && mm ≤ 59 && ss ≤ 59 && dayS.length == 2 &&
              yearS.length == 4 && hS.length == 2 && mS.length == 2 &&
              sS.length == 2 then
            let days := daysBeforeYear y + ((monthLengths (isLeap y)).take mi).sum + (d - 1)
            some ((((days * 24 + hh) * 60 + mm) * 60 + ss) * 1000 : Nat)
          else none
        | _, _, _ => none
      | _, _, _, _ => none
    else none
  | _ => none

/-- Embedding of AuthHelper.validateTimestamp.  The Date.now() read is the
currentTime argument (milliseconds).  The source compares
ageSeconds = (currentTime - requestTime) / 1000 against 0 and
maxAgeSeconds; both comparisons are stated here scaled by 1000, which is
exact (and agrees with the double-precision original at every integral
millisecond input in range).  A string Date cannot parse gives NaN in the
source and every NaN comparison is false, hence the none branch. -/
def validateTimestamp (timestamp : String) (currentTime : Int)
    (maxAgeSeconds : Int := 300) : Bool :=
  match jsDateGetTime timestamp with
  | none => false
  | some requestTime =>
    let ageMs := currentTime - requestTime
    decide (0 ≤ ageMs) && decide (ageMs ≤ maxAgeSeconds * 1000)

/-- Case-insensitive header lookup, the access discipline the verifier
relies on (HTTP header names are case-insensitive and the framework
lowercases them). -/
def getHeaderCI (headers : List (String × String)) (name : String) : Option String :=
  (headers.find? fun p => strToLower p.1 == strToLower name).map fun p => p.2

/-- The string value of a header, empty when absent. -/
def providedOf (headers : List (String × String)) (name : String) : String :=
  optStr (getHeaderCI headers name)

/-- The signature the verifier recomputes from the asserted header fields
and its own secret. -/
def expectedSignatureOf (headers : List (String × String)) (apiSecret : String) : String :=
  generateSignature (providedOf headers "x-tnpg-timestamp")
    (providedOf headers "x-tnpg-host") (providedOf headers "x-tnpg-target-api")
    (providedOf headers "x-tnpg-merchant-id") (providedOf headers "x-tnpg-api-key")
    apiSecret

/-- The inner try/catch around timingSafeEqual: a thrown length mismatch
becomes false. -/
def exceptToFalse : Except String Bool → Bool
  | .ok b => b
  | .error _ => false

/-- The body of AuthHelper.validateSignature inside its outer try block.
Every rejection is an ok false; the error branch stands for an uncaught
exception reaching the outer catch. -/
def validateSignatureE (headers : List (String × String)) (requestBody : JsValue)
    (apiSecret : String) (currentTime : Int) : Except String Bool :=
  let timestamp := getHeaderCI headers "x-tnpg-timestamp"
  let host := getHeaderCI headers "x-tnpg-host"
  let targetApi := getHeaderCI headers "x-tnpg-target-api"
  let merchantId := getHeaderCI headers "x-tnpg-merchant-id"
  let apiKey := getHeaderCI headers "x-tnpg-api-key"
  let providedSignature := getHeaderCI headers "x-tnpg-signature"
  let providedDigest := getHeaderCI headers "x-tnpg-digest"
  if jsFalsy timestamp || jsFalsy host || jsFalsy targetApi || jsFalsy merchantId ||
      jsFalsy apiKey || jsFalsy providedSignature || jsFalsy providedDigest then
    .ok false
  else if !validateTimestamp (optStr timestamp) currentTime then
    .ok false
  else
    let expectedSignature := expectedSignatureOf headers apiSecret
    let expectedDigest := generateDigest requestBody
    let signatureValid := exceptToFalse
      (Crypto.timingSafeEqual (strBytes (optStr providedSignature))
        (strBytes expectedSignature))
    let digestValid := exceptToFalse
      (Crypto.timingSafeEqual (strBytes (optStr providedDigest))
        (strBytes expectedDigest))
    .ok (signatureValid && digestValid)

/-- Embedding of AuthHelper.validateSignature: the outer catch resolves any
uncaught error to false, so the result is always a boolean. -/
def validateSignature (headers : List (String × String)) (requestBody : JsValue)
    (apiSecret : String) (currentTime : Int) : Bool :=
  exceptToFalse (validateSignatureE headers requestBody apiSecret currentTime)

end AuthHelper

/-! Sanity anchors: the embedding reproduces the standard test vectors. -/

/-- FIPS 180-4 test vector: SHA-256 of the ASCII string abc. -/
theorem sha256_test_vector :
    Crypto.base64Encode (Crypto.sha256 (strBytes "abc")) =
      "ungWv48Bz+pBQUDeXa4iI7ADYaOWF3qctBD/YfIAFa0=" := by decide

/-- RFC 4231 test case 2 for HMAC-SHA256 (key Jefe). -/
theorem hmac_test_vector :
    Crypto.base64Encode
        (Crypto.hmacSha256 (strBytes "Jefe") (strBytes "what do ya want for nothing?")) =
      "W9zBRr9gdU5qBCQmCJV1x1oAPwidJzmDnexYuWTsOEM=" := by decide

/-- Base64 padding behavior on inputs of length 1, 2 and 20. -/
theorem base64_test_vector :
    Crypto.base64Encode [77] = "TQ==" ∧ Crypto.base64Encode [77, 97] = "TWE=" ∧
      Crypto.base64Encode (strBytes "any carnal pleasure.") =
        "YW55IGNhcm5hbCBwbGVhc3VyZS4=" := by decide

/-- Parser anchor: the RFC-1123 model of new Date(s).getTime() on a
toUTCString output. -/
theorem jsDateGetTime_anchor :
    AuthHelper.jsDateGetTime "Mon, 09 Feb 2026 07:47:49 GMT" =
      some 1770623269000 := by decide

/-! ## Helper lemmas -/

/-- The or-fold of bytewise xors of a list against itself is zero. -/
theorem tse_fold_self (a : List Nat) :
    (a.zip a).foldl (fun acc p => acc ||| (p.1 ^^^ p.2)) 0 = 0 := by
  induction a with
  | nil => rfl
  | cons x t ih =>
    simpa [Nat.xor_self] using ih

/-- timingSafeEqual accepts a byte list against itself. -/
theorem timingSafeEqual_self (a : List Nat) :
    Crypto.timingSafeEqual a a = .ok true := by
  simp [Crypto.timingSafeEqual, tse_fold_self]

/-- timingSafeEqual throws exactly on a length mismatch. -/
theorem timingSafeEqual_error (a b : List Nat) (h : a.length ≠ b.length) :
    Crypto.timingSafeEqual a b =
      .error "Input buffers must have the same byte length" := by
  simp [Crypto.timingSafeEqual, h]

/-- A SHA-256 digest is 32 bytes. -/
theorem sha256_length (m : List Nat) : (Crypto.sha256 m).length = 32 := by
  simp [Crypto.sha256, Crypto.digestBytes, Crypto.wordBytes]

/-- An HMAC-SHA256 tag is 32 bytes. -/
theorem hmacSha256_length (k m : List Nat) : (Crypto.hmacSha256 k m).length = 32 := by
  unfold Crypto.hmacSha256
  exact sha256_length _

/-- Each full base64 group is four characters. -/
theorem enc3_length (a b c : Nat) : (Crypto.enc3 a b c).length = 4 := rfl

/-- The flat map of a four-character-producing function over a range. -/
theorem length_flatMap_four (f : Nat → List Char) (h4 : ∀ i, (f i).length = 4) :
    ∀ m, ((List.range m).flatMap f).length = 4 * m := by
  intro m
  induction m with
  | zero => rfl
  | succ k ih =>
    rw [List.range_succ, List.flatMap_append, List.length_append, ih]
    simp [h4 k]
    omega

/-- Length of a base64 encoding: four characters per started 3-byte group. -/
theorem base64Encode_length (l : List Nat) :
    (Crypto.base64Encode l).length = 4 * ((l.length + 2) / 3) := by
  have hcore :
      ((List.range (l.length / 3)).flatMap fun i =>
          Crypto.enc3 (l.getD (3 * i) 0) (l.getD (3 * i + 1) 0) (l.getD (3 * i + 2) 0)).length
        = 4 * (l.length / 3) :=
    length_flatMap_four _ (fun i => enc3_length _ _ _) _
  have hmod : l.length % 3 = 0 ∨ l.length % 3 = 1 ∨ l.length % 3 = 2 := by omega
  rcases hmod with h3 | h3 | h3 <;>
    · show (_ ++ _ : List Char).length = _
      rw [List.length_append, hcore, h3]
      simp
      omega

/-- A nonempty-length string is not the empty string. -/
theorem ne_empty_of_length_pos (s : String) (h : 0 < s.length) : s ≠ "" := by
  intro he
  rw [he] at h
  simp at h

/-- The signature produced by generateSignature is never empty (it encodes
32 tag bytes into 44 base64 characters). -/
theorem generateSignature_ne_empty (t h ta m k s : String) :
    AuthHelper.generateSignature t h ta m k s ≠ "" := by
  apply ne_empty_of_length_pos
  show 0 < (Crypto.base64Encode (Crypto.hmacSha256 _ _)).length
  rw [base64Encode_length, hmacSha256_length]
  omega

/-- The digest produced by generateDigest is never empty (it carries the
literal SHA-256= prefix). -/
theorem generateDigest_ne_empty (b : JsValue) :
    AuthHelper.generateDigest b ≠ "" := by
  intro he
  have := congrArg String.length he
  rw [AuthHelper.generateDigest, String.length_append] at this
  simp at this
  exact absurd this.1 (by decide)

/-- The derived host is never empty: an explicit scheme implies a nonempty
host, and otherwise a scheme prefix is added. -/
theorem buildHost_ne_empty (s : String) : AuthHelper.buildHost s ≠ "" := by
  unfold AuthHelper.buildHost
  split
  · next hcond =>
    intro he
    subst he
    simp [strStartsWith] at hcond
  · split <;>
      · intro he
        have := congrArg String.length he
        rw [String.length_append] at this
        simp at this
        exact absurd this.1 (by decide)

/-- The method-prefixed target API string is never empty. -/
theorem postApi_ne_empty (api : String) : ("POST " ++ api) ≠ "" := by
  intro he
  have := congrArg String.length he
  rw [String.length_append] at this
  simp at this
  exact absurd this.1 (by decide)

/-- A string the date parser accepts is not empty. -/
theorem parse_some_ne_empty (ts : String) (t : Int)
    (h : AuthHelper.jsDateGetTime ts = some t) : ts ≠ "" := by
  intro he
  subst he
  rw [show AuthHelper.jsDateGetTime "" = none from by decide] at h
  exact Option.noConfusion h

/-- A non-falsy optional string is a some of a nonempty string. -/
theorem jsFalsy_false_iff (o : Option String) :
    jsFalsy o = false ↔ o = some (optStr o) ∧ optStr o ≠ "" := by
  cases o with
  | none => simp [jsFalsy]
  | some s => simp [jsFalsy, optStr]

/-- The header set generateGatewayHeaders emits once the three credential
checks pass. -/
theorem generateGatewayHeaders_ok (timestamp targetApi : String)
    (requestBody : JsValue) (config : Config)
    (hm : jsFalsy config.merchantId = false)
    (hk : jsFalsy config.apiKey = false)
    (hs : jsFalsy config.apiSecret = false) :
    AuthHelper.generateGatewayHeaders timestamp targetApi requestBody config =
      .ok [("X-TNPG-TIMESTAMP", timestamp),
           ("X-TNPG-HOST", AuthHelper.buildHost (jsOrDefault config.host "api-stage.tnextpay.com")),
           ("X-TNPG-TARGET-API", "POST " ++ targetApi),
           ("X-TNPG-MERCHANT-ID", optStr config.merchantId),
           ("X-TNPG-API-KEY", optStr config.apiKey),
           ("X-TNPG-SIGNATURE", AuthHelper.generateSignature timestamp
              (AuthHelper.buildHost (jsOrDefault config.host "api-stage.tnextpay.com"))
              ("POST " ++ targetApi) (optStr config.merchantId) (optStr config.apiKey)
              (optStr config.apiSecret)),
           ("X-TNPG-DIGEST", AuthHelper.generateDigest requestBody),
           ("Content-Type", "application/json")] := by
  simp [AuthHelper.generateGatewayHeaders, hm, hk, hs]

/-- A freshly generated header set passes validateSignature, stated over
the literal eight-entry header list with nonempty field values, a matching
signature and digest, and an accepted timestamp. -/
theorem validateSignature_roundtrip_list
    (ts host tam mid key sig dig sec : String) (body : JsValue) (ct : Int)
    (hts : ts ≠ "") (hhost : host ≠ "") (htam : tam ≠ "")
    (hmid : mid ≠ "") (hkey : key ≠ "")
    (hsig : sig = AuthHelper.generateSignature ts host tam mid key sec)
    (hdig : dig = AuthHelper.generateDigest body)
    (hvt : AuthHelper.validateTimestamp ts ct 300 = true) :
    AuthHelper.validateSignature
      [("X-TNPG-TIMESTAMP", ts), ("X-TNPG-HOST", host),
       ("X-TNPG-TARGET-API", tam), ("X-TNPG-MERCHANT-ID", mid),
       ("X-TNPG-API-KEY", key), ("X-TNPG-SIGNATURE", sig),
       ("X-TNPG-DIGEST", dig), ("Content-Type", "application/json")]
      body sec ct = true := by
  have hsige : sig ≠ "" := by rw [hsig]; exact generateSignature_ne_empty _ _ _ _ _ _
  have hdige : dig ≠ "" := by rw [hdig]; exact generateDigest_ne_empty _
  have l1 : AuthHelper.getHeaderCI
      [("X-TNPG-TIMESTAMP", ts), ("X-TNPG-HOST", host),
       ("X-TNPG-TARGET-API", tam), ("X-TNPG-MERCHANT-ID", mid),
       ("X-TNPG-API-KEY", key), ("X-TNPG-SIGNATURE", sig),
       ("X-TNPG-DIGEST", dig), ("Content-Type", "application/json")]
      "x-tnpg-timestamp" = some ts := rfl
  have l2 : AuthHelper.getHeaderCI
      [("X-TNPG-TIMESTAMP", ts), ("X-TNPG-HOST", host),
       ("X-TNPG-TARGET-API", tam), ("X-TNPG-MERCHANT-ID", mid),
       ("X-TNPG-API-KEY", key), ("X-TNPG-SIGNATURE", sig),
       ("X-TNPG-DIGEST", dig), ("Content-Type", "application/json")]
      "x-tnpg-host" = some host := rfl
  have l3 : AuthHelper.getHeaderCI
      [("X-TNPG-TIMESTAMP", ts), ("X-TNPG-HOST", host),
       ("X-TNPG-TARGET-API", tam), ("X-TNPG-MERCHANT-ID", mid),
       ("X-TNPG-API-KEY", key), ("X-TNPG-SIGNATURE", sig),
       ("X-TNPG-DIGEST", dig), ("Content-Type", "application/json")]
      "x-tnpg-target-api" = some tam := rfl
  have l4 : AuthHelper.getHeaderCI
      [("X-TNPG-TIMESTAMP", ts), ("X-TNPG-HOST", host),
       ("X-TNPG-TARGET-API", tam), ("X-TNPG-MERCHANT-ID", mid),
       ("X-TNPG-API-KEY", key), ("X-TNPG-SIGNATURE", sig),
       ("X-TNPG-DIGEST", dig), ("Content-Type", "application/json")]
      "x-tnpg-merchant-id" = some mid := rfl
  have l5 : AuthHelper.getHeaderCI
      [("X-TNPG-TIMESTAMP", ts), ("X-TNPG-HOST", host),
       ("X-TNPG-TARGET-API", tam), ("X-TNPG-MERCHANT-ID", mid),
       ("X-TNPG-API-KEY", key), ("X-TNPG-SIGNATURE", sig),
       ("X-TNPG-DIGEST", dig), ("Content-Type", "application/json")]
      "x-tnpg-api-key" = some key := rfl
  have l6 : AuthHelper.getHeaderCI
      [("X-TNPG-TIMESTAMP", ts), ("X-TNPG-HOST", host),
       ("X-TNPG-TARGET-API", tam), ("X-TNPG-MERCHANT-ID", mid),
       ("X-TNPG-API-KEY", key), ("X-TNPG-SIGNATURE", sig),
       ("X-TNPG-DIGEST", dig), ("Content-Type", "application/json")]
      "x-tnpg-signature" = some sig := rfl
  have l7 : AuthHelper.getHeaderCI
      [("X-TNPG-TIMESTAMP", ts), ("X-TNPG-HOST", host),
       ("X-TNPG-TARGET-API", tam), ("X-TNPG-MERCHANT-ID", mid),
       ("X-TNPG-API-KEY", key), ("X-TNPG-SIGNATURE", sig),
       ("X-TNPG-DIGEST", dig), ("Content-Type", "application/json")]
      "x-tnpg-digest" = some dig := rfl
  simp only [AuthHelper.validateSignature, AuthHelper.validateSignatureE,
    AuthHelper.expectedSignatureOf, AuthHelper.providedOf,
    l1, l2, l3, l4, l5, l6, l7]
  simp only [jsFalsy, optStr, Option.getD_some]
  rw [beq_eq_false_iff_ne.mpr hts, beq_eq_false_iff_ne.mpr hhost,
    beq_eq_false_iff_ne.mpr htam, beq_eq_false_iff_ne.mpr hmid,
    beq_eq_false_iff_ne.mpr hkey, beq_eq_false_iff_ne.mpr hsige,
    beq_eq_false_iff_ne.mpr hdige]
  simp only [Bool.or_self, Bool.or_false, Bool.false_or, if_neg, hvt,
    Bool.not_true, Bool.false_eq_true, ite_false]
  subst hsig hdig
  simp [timingSafeEqual_self, AuthHelper.exceptToFalse]

/-! ## Claims -/

/-- C1: verification round-trip: a header set produced by
generateGatewayHeaders under a configuration with non-empty merchantId,
apiKey and apiSecret, presented unchanged to validateSignature (header
names looked up case-insensitively) with the same body and the same
apiSecret, is accepted whenever the verifier clock is within the 300
second replay window of the signing time. -/
theorem verification_round_trip
    (targetApi : String) (requestBody : JsValue) (config : Config)
    (timestamp : String) (t currentTime : Int) (hdrs : List (String × String))
    (hm : jsFalsy config.merchantId = false)
    (hk : jsFalsy config.apiKey = false)
    (hs : jsFalsy config.apiSecret = false)
    (hgen : AuthHelper.generateGatewayHeaders timestamp targetApi requestBody config = .ok hdrs)
    (hparse : AuthHelper.jsDateGetTime timestamp = some t)
    (hage0 : 0 ≤ currentTime - t)
    (hage1 : currentTime - t ≤ 300 * 1000) :
    AuthHelper.validateSignature hdrs requestBody (optStr config.apiSecret)
      currentTime = true := by
  rw [generateGatewayHeaders_ok timestamp targetApi requestBody config hm hk hs] at hgen
  injection hgen with hh
  subst hh
  refine validateSignature_roundtrip_list _ _ _ _ _ _ _ _ _ _
    (parse_some_ne_empty _ _ hparse) (buildHost_ne_empty _) (postApi_ne_empty _)
    ((jsFalsy_false_iff _).mp hm).2 ((jsFalsy_false_iff _).mp hk).2 rfl rfl ?_
  simp only [AuthHelper.validateTimestamp, hparse]
  simp only [Bool.and_eq_true, decide_eq_true_eq]
  exact ⟨hage0, hage1⟩

/-- C1 witness: a fully concrete round trip, with the verifier clock one
second after the signing time. -/
theorem verification_round_trip_witness :
    AuthHelper.validateSignature
      ((AuthHelper.generateGatewayHeaders "Mon, 09 Feb 2026 07:47:49 GMT" "/pay"
          (JsValue.obj [("order_id", JsValue.str "ORDER-12345")])
          ⟨some "api-stage.tnextpay.com", some "M12345", some "test", some "sk"⟩).toOption.getD [])
      (JsValue.obj [("order_id", JsValue.str "ORDER-12345")]) "sk" 1770623270000 = true :=
  verification_round_trip "/pay" (JsValue.obj [("order_id", JsValue.str "ORDER-12345")])
    ⟨some "api-stage.tnextpay.com", some "M12345", some "test", some "sk"⟩
    "Mon, 09 Feb 2026 07:47:49 GMT" 1770623269000 1770623270000 _
    (by decide) (by decide) (by decide) (by rfl) (by decide) (by decide) (by decide)

/-- C2: generateSignature is the base64 encoding of HMAC-SHA256 keyed by
apiSecret over the pipe-joined string of the five fields taken verbatim in
order timestamp, host, targetApi, merchantId, apiKey; generateDigest is the
literal SHA-256= prefix followed by the base64 encoding of SHA-256 of the
JSON serialization of the body. -/
theorem signature_and_digest_encoding
    (timestamp host targetApi merchantId apiKey apiSecret : String)
    (body : JsValue) :
    AuthHelper.generateSignature timestamp host targetApi merchantId apiKey apiSecret =
        Crypto.base64Encode (Crypto.hmacSha256 (strBytes apiSecret)
          (strBytes (timestamp ++ "|" ++ host ++ "|" ++ targetApi ++ "|" ++
            merchantId ++ "|" ++ apiKey)))
      ∧ AuthHelper.generateDigest body =
          "SHA-256=" ++ Crypto.base64Encode (Crypto.sha256 (strBytes (jsonStringify body))) :=
  ⟨rfl, rfl⟩

/-- C3 counterexample: a timestamp one second in the future of the verifier
clock, far inside the 300 second window, is rejected by validateTimestamp,
refuting the claim that future timestamps within the window are accepted. -/
theorem future_skew_rejected_counterexample :
    AuthHelper.validateTimestamp "Mon, 09 Feb 2026 07:47:50 GMT" 1770623269000 300 = false := by
  decide

/-- C3 amended: validateTimestamp tolerates no future skew at all: whenever
the parsed timestamp lies strictly in the future of the verifier clock, the
timestamp is rejected for every window size. -/
theorem future_skew_always_rejected (timestamp : String) (t currentTime w : Int)
    (hparse : AuthHelper.jsDateGetTime timestamp = some t)
    (hfuture : currentTime < t) :
    AuthHelper.validateTimestamp timestamp currentTime w = false := by
  simp only [AuthHelper.validateTimestamp, hparse]
  have : ¬ (0 ≤ currentTime - t) := by omega
  simp [this]

/-- C3 amended witness at the concrete parsed timestamp. -/
theorem future_skew_always_rejected_witness :
    AuthHelper.validateTimestamp "Mon, 09 Feb 2026 07:47:50 GMT" 1770623269500 300 = false :=
  future_skew_always_rejected "Mon, 09 Feb 2026 07:47:50 GMT" 1770623270000
    1770623269500 300 (by decide) (by decide)

/-- C4: with the default 300 second window, a timestamp whose age is
exactly 300 seconds is accepted and any older timestamp is rejected. -/
theorem replay_window_boundary (timestamp : String) (t currentTime : Int)
    (hparse : AuthHelper.jsDateGetTime timestamp = some t) :
    (currentTime - t = 300 * 1000 →
        AuthHelper.validateTimestamp timestamp currentTime = true)
      ∧ (300 * 1000 < currentTime - t →
          AuthHelper.validateTimestamp timestamp currentTime = false) := by
  constructor
  · intro hage
    simp only [AuthHelper.validateTimestamp, hparse]
    simp [hage]
  · intro hage
    simp only [AuthHelper.validateTimestamp, hparse]
    have : ¬ (currentTime - t ≤ 300 * 1000) := by omega
    simp [this]
    omega

/-- C4 witness at the concrete parsed timestamp: exactly 300 seconds old is
accepted, 300.001 seconds old is rejected. -/
theorem replay_window_boundary_witness :
    AuthHelper.validateTimestamp "Mon, 09 Feb 2026 07:47:49 GMT" 1770623569000 = true ∧
      AuthHelper.validateTimestamp "Mon, 09 Feb 2026 07:47:49 GMT" 1770623569001 = false :=
  ⟨(replay_window_boundary "Mon, 09 Feb 2026 07:47:49 GMT" 1770623269000
      1770623569000 (by decide)).1 (by decide),
   (replay_window_boundary "Mon, 09 Feb 2026 07:47:49 GMT" 1770623269000
      1770623569001 (by decide)).2 (by decide)⟩

/-- C5 counterexample: the two field tuples the claim requires to produce
different signatures in fact produce the same signature under the same
secret, because both pipe-join to a|b|c|d|e|f. -/
theorem delimiter_collision_counterexample :
    AuthHelper.generateSignature "a" "b|c" "d" "e" "f" "sec" =
      AuthHelper.generateSignature "a|b" "c" "d" "e" "f" "sec" := rfl

/-- C5 amended: the field tuples (a, b|c, d, e, f) and (a|b, c, d, e, f)
collide for every secret: fields are joined verbatim with a pipe and no
escaping, so both tuples canonicalize to the same signature string. -/
theorem delimiter_collision (secret : String) :
    AuthHelper.generateSignature "a" "b|c" "d" "e" "f" secret =
      AuthHelper.generateSignature "a|b" "c" "d" "e" "f" secret := rfl

/-- C6: a byte-length mismatch between the provided and the recomputed
expected signature, or between the provided and the recomputed expected
digest, makes validateSignature return false (the thrown length-mismatch
of timingSafeEqual is caught and treated as not-equal, never escaping). -/
theorem length_mismatch_rejected (headers : List (String × String))
    (body : JsValue) (apiSecret : String) (currentTime : Int)
    (hlen : (strBytes (AuthHelper.providedOf headers "x-tnpg-signature")).length ≠
        (strBytes (AuthHelper.expectedSignatureOf headers apiSecret)).length
      ∨ (strBytes (AuthHelper.providedOf headers "x-tnpg-digest")).length ≠
        (strBytes (AuthHelper.generateDigest body)).length) :
    AuthHelper.validateSignature headers body apiSecret currentTime = false := by
  simp only [AuthHelper.providedOf] at hlen
  simp only [AuthHelper.validateSignature, AuthHelper.validateSignatureE]
  split
  · rfl
  · split
    · rfl
    · simp only [AuthHelper.exceptToFalse]
      rcases hlen with h | h
      · rw [timingSafeEqual_error _ _ h]
        simp [AuthHelper.exceptToFalse]
      · rw [timingSafeEqual_error _ _ h]
        simp [AuthHelper.exceptToFalse]

/-- C6 witness: a one-character provided signature against the 44 character
recomputed signature is rejected. -/
theorem length_mismatch_rejected_witness :
    AuthHelper.validateSignature [("x-tnpg-signature", "x")] (JsValue.obj [])
      "s" 0 = false :=
  length_mismatch_rejected [("x-tnpg-signature", "x")] (JsValue.obj []) "s" 0
    (Or.inl (by decide))

/-- C7: the verifier is total: the body of validateSignature never reaches
the outer catch (it always produces an ok boolean, which validateSignature
returns), and the failure modes of missing headers and of an unparseable
timestamp value each resolve to false. -/
theorem verifier_total (headers : List (String × String)) (body : JsValue)
    (apiSecret : String) (currentTime : Int) :
    AuthHelper.validateSignatureE headers body apiSecret currentTime =
        .ok (AuthHelper.validateSignature headers body apiSecret currentTime)
      ∧ ((AuthHelper.getHeaderCI headers "x-tnpg-timestamp" = none ∨
          AuthHelper.getHeaderCI headers "x-tnpg-host" = none ∨
          AuthHelper.getHeaderCI headers "x-tnpg-target-api" = none ∨
          AuthHelper.getHeaderCI headers "x-tnpg-merchant-id" = none ∨
          AuthHelper.getHeaderCI headers "x-tnpg-api-key" = none ∨
          AuthHelper.getHeaderCI headers "x-tnpg-signature" = none ∨
          AuthHelper.getHeaderCI headers "x-tnpg-digest" = none) →
          AuthHelper.validateSignature headers body apiSecret currentTime = false)
      ∧ (AuthHelper.jsDateGetTime (AuthHelper.providedOf headers "x-tnpg-timestamp") = none →
          AuthHelper.validateSignature headers body apiSecret currentTime = false) := by
  refine ⟨?_, ?_, ?_⟩
  · simp only [AuthHelper.validateSignature, AuthHelper.validateSignatureE]
    split
    · rfl
    · split
      · rfl
      · rfl
  · intro h
    have hcond : (jsFalsy (AuthHelper.getHeaderCI headers "x-tnpg-timestamp") ||
        jsFalsy (AuthHelper.getHeaderCI headers "x-tnpg-host") ||
        jsFalsy (AuthHelper.getHeaderCI headers "x-tnpg-target-api") ||
        jsFalsy (AuthHelper.getHeaderCI headers "x-tnpg-merchant-id") ||
        jsFalsy (AuthHelper.getHeaderCI headers "x-tnpg-api-key") ||
        jsFalsy (AuthHelper.getHeaderCI headers "x-tnpg-signature") ||
        jsFalsy (AuthHelper.getHeaderCI headers "x-tnpg-digest")) = true := by
      rcases h with h | h | h | h | h | h | h <;> simp [h, jsFalsy]
    simp [AuthHelper.validateSignature, AuthHelper.validateSignatureE, hcond,
      AuthHelper.exceptToFalse]
  · intro h
    simp only [AuthHelper.providedOf] at h
    by_cases hcond : (jsFalsy (AuthHelper.getHeaderCI headers "x-tnpg-timestamp") ||
        jsFalsy (AuthHelper.getHeaderCI headers "x-tnpg-host") ||
        jsFalsy (AuthHelper.getHeaderCI headers "x-tnpg-target-api") ||
        jsFalsy (AuthHelper.getHeaderCI headers "x-tnpg-merchant-id") ||
        jsFalsy (AuthHelper.getHeaderCI headers "x-tnpg-api-key") ||
        jsFalsy (AuthHelper.getHeaderCI headers "x-tnpg-signature") ||
        jsFalsy (AuthHelper.getHeaderCI headers "x-tnpg-digest")) = true
    · simp [AuthHelper.validateSignature, AuthHelper.validateSignatureE, hcond,
        AuthHelper.exceptToFalse]
    · have hvt : AuthHelper.validateTimestamp
          (optStr (AuthHelper.getHeaderCI headers "x-tnpg-timestamp")) currentTime 300 = false := by
        simp only [AuthHelper.validateTimestamp]
        rw [h]
      simp [AuthHelper.validateSignature, AuthHelper.validateSignatureE, hcond, hvt,
        AuthHelper.exceptToFalse]

/-- C7 witness: the empty header set: the body yields ok of the overall
verdict, and both failure modes give false. -/
theorem verifier_total_witness :
    AuthHelper.validateSignatureE [] (JsValue.obj []) "s" 0 =
        .ok (AuthHelper.validateSignature [] (JsValue.obj []) "s" 0)
      ∧ AuthHelper.validateSignature [] (JsValue.obj []) "s" 0 = false
      ∧ AuthHelper.validateSignature [] (JsValue.obj []) "s" 0 = false :=
  ⟨(verifier_total [] (JsValue.obj []) "s" 0).1,
   (verifier_total [] (JsValue.obj []) "s" 0).2.1 (Or.inl rfl),
   (verifier_total [] (JsValue.obj []) "s" 0).2.2 (by decide)⟩

/-- C8: generateGatewayHeaders fails, with an error naming the missing
credential, whenever merchantId, apiKey or apiSecret is empty or absent,
and produces no header set in that case. -/
theorem credentials_required (timestamp targetApi : String) (body : JsValue)
    (config : Config)
    (hblank : jsFalsy config.merchantId = true ∨ jsFalsy config.apiKey = true ∨
      jsFalsy config.apiSecret = true) :
    ∃ e, AuthHelper.generateGatewayHeaders timestamp targetApi body config = .error e ∧
      ((jsFalsy config.merchantId = true ∧
          e = "MERCHANT_ID is required for gateway authentication") ∨
        (jsFalsy config.apiKey = true ∧
          e = "API_KEY is required for gateway authentication") ∨
        (jsFalsy config.apiSecret = true ∧
          e = "API_SECRET is required for gateway authentication")) := by
  by_cases hm : jsFalsy config.merchantId = true
  · exact ⟨_, by simp [AuthHelper.generateGatewayHeaders, hm], Or.inl ⟨hm, rfl⟩⟩
  · rw [Bool.not_eq_true] at hm
    by_cases hk : jsFalsy config.apiKey = true
    · exact ⟨_, by simp [AuthHelper.generateGatewayHeaders, hm, hk], Or.inr (Or.inl ⟨hk, rfl⟩)⟩
    · rw [Bool.not_eq_true] at hk
      rcases hblank with h | h | h
      · exact absurd h (by simp [hm])
      · exact absurd h (by simp [hk])
      · exact ⟨_, by simp [AuthHelper.generateGatewayHeaders, hm, hk, h],
          Or.inr (Or.inr ⟨h, rfl⟩)⟩

/-- C8 witness: a configuration missing only the merchant id is refused
with an error naming a missing credential. -/
theorem credentials_required_witness :
    ∃ e, AuthHelper.generateGatewayHeaders "Mon, 09 Feb 2026 07:47:49 GMT" "/pay"
        (JsValue.obj []) ⟨some "h.example", none, some "pk", some "sk"⟩ = .error e ∧
      ((jsFalsy (Config.mk (some "h.example") none (some "pk") (some "sk")).merchantId = true ∧
          e = "MERCHANT_ID is required for gateway authentication") ∨
        (jsFalsy (Config.mk (some "h.example") none (some "pk") (some "sk")).apiKey = true ∧
          e = "API_KEY is required for gateway authentication") ∨
        (jsFalsy (Config.mk (some "h.example") none (some "pk") (some "sk")).apiSecret = true ∧
          e = "API_SECRET is required for gateway authentication")) :=
  credentials_required "Mon, 09 Feb 2026 07:47:49 GMT" "/pay" (JsValue.obj [])
    ⟨some "h.example", none, some "pk", some "sk"⟩ (Or.inl (by decide))

/-- C9 counterexample: a configuration with absent host but full
credentials does not fail: generateGatewayHeaders succeeds, refuting the
claim that a blank host fails construction. -/
theorem blank_host_counterexample :
    (AuthHelper.generateGatewayHeaders "Mon, 09 Feb 2026 07:47:49 GMT" "/pay"
        (JsValue.obj []) ⟨none, some "m", some "k", some "s"⟩).isOk = true := by
  decide

/-- C9 amended: a blank (empty or absent) host does not fail construction:
it is replaced by the default host api-stage.tnextpay.com, which is emitted
scheme-qualified as https://api-stage.tnextpay.com; only merchantId, apiKey
and apiSecret are required. -/
theorem blank_host_defaults (timestamp targetApi : String) (body : JsValue)
    (config : Config)
    (hhost : config.host = none ∨ config.host = some "")
    (hm : jsFalsy config.merchantId = false)
    (hk : jsFalsy config.apiKey = false)
    (hs : jsFalsy config.apiSecret = false) :
    ∃ hdrs, AuthHelper.generateGatewayHeaders timestamp targetApi body config = .ok hdrs ∧
      AuthHelper.getHeaderCI hdrs "x-tnpg-host" =
        some "https://api-stage.tnextpay.com" := by
  have hbase : jsOrDefault config.host "api-stage.tnextpay.com" = "api-stage.tnextpay.com" := by
    rcases hhost with h | h <;> simp [h, jsOrDefault]
  refine ⟨_, generateGatewayHeaders_ok timestamp targetApi body config hm hk hs, ?_⟩
  rw [hbase]
  rfl

/-- C9 amended witness at a concrete absent-host configuration. -/
theorem blank_host_defaults_witness :
    ∃ hdrs, AuthHelper.generateGatewayHeaders "Mon, 09 Feb 2026 07:47:49 GMT" "/pay"
        (JsValue.obj []) ⟨none, some "m", some "k", some "s"⟩ = .ok hdrs ∧
      AuthHelper.getHeaderCI hdrs "x-tnpg-host" =
        some "https://api-stage.tnextpay.com" :=
  blank_host_defaults "Mon, 09 Feb 2026 07:47:49 GMT" "/pay" (JsValue.obj [])
    ⟨none, some "m", some "k", some "s"⟩ (Or.inl rfl) (by decide) (by decide) (by decide)

/-- C10: generateDigest hashes the body serialization in insertion order:
the two objects mapping a to 1 and b to 2, inserted in opposite orders, are
equal as key-to-value maps yet receive different digests, while
SignatureService.stringifyPayload (which sorts keys recursively) gives both
the same canonical string. -/
theorem digest_not_key_order_canonical :
    (∀ k : String,
        List.lookup k [("a", JsValue.num 1), ("b", JsValue.num 2)] =
          List.lookup k [("b", JsValue.num 2), ("a", JsValue.num 1)])
      ∧ AuthHelper.generateDigest (JsValue.obj [("a", JsValue.num 1), ("b", JsValue.num 2)]) ≠
          AuthHelper.generateDigest (JsValue.obj [("b", JsValue.num 2), ("a", JsValue.num 1)])
      ∧ SignatureService.stringifyPayload
            (JsValue.obj [("a", JsValue.num 1), ("b", JsValue.num 2)]) =
          SignatureService.stringifyPayload
            (JsValue.obj [("b", JsValue.num 2), ("a", JsValue.num 1)]) := by
  refine ⟨?_, by decide, by decide⟩
  intro k
  by_cases h1 : k = "a"
  · subst h1
    rfl
  · by_cases h2 : k = "b"
    · subst h2
      rfl
    · have b1 : (k == "a") = false := by simp [h1]
      have b2 : (k == "b") = false := by simp [h2]
      simp [List.lookup, b1, b2]

end Gateway
